import Mathlib

/-!
Shallow embedding of the ri-sandbox core (a deterministic WebAssembly sandbox
written in TypeScript) and proofs about it.

Conventions of the embedding:
- JavaScript 32-bit integer values are represented as natural numbers below
  2^32 (their unsigned residues); every operation that coerces to 32 bits in
  JavaScript takes the result modulo 2^32.  Signed/unsigned distinctions do
  not matter for any arithmetic used here because all operations agree with
  arithmetic modulo 2^32 on residues.
- Byte buffers (Uint8Array) are lists of naturals.
- Thrown JavaScript exceptions are modelled as explicit signal values
  returned alongside the mutated state.
- The external WebAssembly engine and the wall clock are modelled as
  universally quantified oracles: the executor's behaviour is proved for
  every possible behaviour of the engine and clock.
-/

namespace RiSandbox

/-- Modulus for JavaScript 32-bit integer coercions. -/
def U32 : Nat := 4294967296

-- ---------------------------------------------------------------------------
-- Data model (src/types.ts, src/internal-types.ts)
-- ---------------------------------------------------------------------------

/-- Lifecycle states of a sandbox instance (SandboxStatus in types.ts). -/
inductive SandboxStatus where
  | created
  | loaded
  | running
  | suspended
  | destroyed
deriving DecidableEq, Repr

/-- Discriminated union of sandbox errors (SandboxError in errors.ts).
Message strings follow the source but drop the quote characters. -/
inductive SandboxError where
  | gasExhaustedErr (gasUsed gasLimit : Nat)
  | memoryExceededErr (memoryUsed memoryLimit : Nat)
  | timeoutErr (elapsedMs limitMs : Nat)
  | wasmTrapErr (trapKind message : String)
  | invalidModuleErr (reason : String)
  | hostFunctionErr (functionName message : String)
  | instanceDestroyedErr (instanceId : String)
  | snapshotErr (reason : String)
deriving DecidableEq, Repr

/-- Resource usage snapshot (ResourceMetrics in types.ts). -/
structure ResourceMetrics where
  memoryUsedBytes : Nat
  memoryLimitBytes : Nat
  gasUsed : Nat
  gasLimit : Nat
  executionMs : Nat
  executionLimitMs : Nat
deriving DecidableEq, Repr

/-- WASM value types for host function signatures (WasmValueType in types.ts). -/
inductive WasmValueType where
  | i32
  | i64
  | f32
  | f64
deriving DecidableEq, Repr

/-- A host function injected into the sandbox (HostFunction in types.ts).
The handler models `(...args: number[]) => number | undefined` on integers. -/
structure HostFunction where
  name : String
  params : List WasmValueType
  results : List WasmValueType
  handler : List Int → Option Int

/-- Sandbox configuration (SandboxConfig in types.ts).  `hostFunctions` is an
association list in JavaScript object insertion order. -/
structure SandboxConfig where
  maxMemoryBytes : Nat
  maxGas : Nat
  maxExecutionMs : Nat
  hostFunctions : List (String × HostFunction)
  deterministicSeed : Nat
  eventTimestamp : Nat

/-- Serializable PRNG state (PrngState in random-injection.ts). -/
structure PrngState where
  current : Nat
deriving DecidableEq, Repr

/-- Linear memory: byte contents plus the configured page maximum
(WebAssembly.Memory with its `maximum` option). -/
structure WasmMemory where
  data : List Nat
  maxPages : Nat
deriving DecidableEq, Repr

-- ---------------------------------------------------------------------------
-- Gas meter (src/resources/gas-meter.ts)
-- ---------------------------------------------------------------------------

/-- Mutable state of a gas meter (closure state of createGasMeter). -/
structure GasMeter where
  gasUsed : Nat
  gasLimit : Nat
  exhausted : Bool
deriving DecidableEq, Repr

/-- Payload of a thrown GasExhaustedSignal. -/
structure GasSignal where
  gasUsed : Nat
  gasLimit : Nat
deriving DecidableEq, Repr

/-- Source createGasMeter: gasUsed = 0, exhausted = false. -/
def createGasMeter (gasLimit : Nat) : GasMeter :=
  { gasUsed := 0, gasLimit := gasLimit, exhausted := false }

/-- Source consume(amount): returns the meter after the call together with
the GasExhaustedSignal when one is thrown.
- already exhausted: throw with the current counters, no mutation;
- gasUsed + amount > gasLimit: mark exhausted, add the amount, throw with
  the updated counters;
- otherwise add the amount and return normally. -/
def GasMeter.consume (m : GasMeter) (amount : Nat) : GasMeter × Option GasSignal :=
  if m.exhausted then
    (m, some { gasUsed := m.gasUsed, gasLimit := m.gasLimit })
  else if m.gasLimit < m.gasUsed + amount then
    let m' : GasMeter := { m with exhausted := true, gasUsed := m.gasUsed + amount }
    (m', some { gasUsed := m'.gasUsed, gasLimit := m'.gasLimit })
  else
    ({ m with gasUsed := m.gasUsed + amount }, none)

/-- Source reset(): gasUsed = 0, exhausted = false. -/
def GasMeter.reset (m : GasMeter) : GasMeter :=
  { m with gasUsed := 0, exhausted := false }

/-- Run a sequence of consume calls, threading the meter state through and
discarding the thrown signals (as a caller that catches them would). -/
def runConsumes (m : GasMeter) : List Nat → GasMeter
  | [] => m
  | a :: rest => runConsumes (m.consume a).1 rest

-- ---------------------------------------------------------------------------
-- PRNG (src/determinism/random-injection.ts)
-- ---------------------------------------------------------------------------

/-- JavaScript Math.imul on unsigned 32-bit residues: multiply modulo 2^32. -/
def imul32 (a b : Nat) : Nat := (a * b) % U32

/-- Mulberry32 step from the source (mulberry32Step), on unsigned residues:
  t = (state + 0x6D2B79F5) | 0; nextState = t;
  t = imul(t ^ (t >>> 15), t | 1);
  t = (t + imul(t ^ (t >>> 7), t | 61)) ^ t;
  output = (t ^ (t >>> 14)) >>> 0.
Returns (output, nextState). -/
def mulberry32Step (state : Nat) : Nat × Nat :=
  let t0 := (state + 0x6d2b79f5) % U32
  let nextState := t0
  let t1 := imul32 (Nat.xor t0 (t0 >>> 15)) (Nat.lor t0 1)
  let t2 := Nat.xor ((t1 + imul32 (Nat.xor t1 (t1 >>> 7)) (Nat.lor t1 61)) % U32) t1
  let output := Nat.xor t2 (t2 >>> 14)
  (output, nextState)

/-- Source createPrng: current = seed | 0 (seed coerced to 32 bits). -/
def createPrng (seed : Nat) : PrngState :=
  { current := seed % U32 }

/-- Source next(): step the state, store nextState, return the output. -/
def prngNext (p : PrngState) : Nat × PrngState :=
  let s := mulberry32Step p.current
  (s.1, { current := s.2 })

/-- Source setState(state): current = state.current | 0. -/
def prngSetState (_p : PrngState) (s : PrngState) : PrngState :=
  { current := s.current % U32 }

/-- Output sequence of length k from a PRNG state. -/
def prngOutputs (p : PrngState) : Nat → List Nat
  | 0 => []
  | Nat.succ k =>
      let s := prngNext p
      s.1 :: prngOutputs s.2 k

-- ---------------------------------------------------------------------------
-- Memory limiter (src/resources/memory-limiter.ts)
-- ---------------------------------------------------------------------------

/-- Source getMemoryUsageBytes: 0 when memory is null, else buffer length. -/
def getMemoryUsageBytes : Option WasmMemory → Nat
  | none => 0
  | some mem => mem.data.length

/-- Result of a memory limit check (MemoryCheckResult). -/
structure MemoryCheckResult where
  usedBytes : Nat
  limitBytes : Nat
  exceeded : Bool
deriving DecidableEq, Repr

/-- Source checkMemoryLimit: exceeded when usage strictly exceeds the limit. -/
def checkMemoryLimit (memory : Option WasmMemory) (limitBytes : Nat) : MemoryCheckResult :=
  let usedBytes := getMemoryUsageBytes memory
  { usedBytes := usedBytes, limitBytes := limitBytes, exceeded := limitBytes < usedBytes }

/-- Source createMemoryExceededError. -/
def createMemoryExceededError (result : MemoryCheckResult) : SandboxError :=
  .memoryExceededErr result.usedBytes result.limitBytes

-- ---------------------------------------------------------------------------
-- Timeout checker and execution context (src/resources/timeout.ts,
-- src/resources/resource-tracker.ts)
-- ---------------------------------------------------------------------------

/-- Mutable state of the wall-clock checker (closure state of
createTimeoutChecker).  The injectable timer is modelled by passing the
current time to the operations that read it. -/
structure TimeoutChecker where
  startTime : Nat
  limitMs : Nat
  timedOut : Bool
  started : Bool
deriving DecidableEq, Repr

/-- Source createTimeoutChecker closure state. -/
def createTimeoutChecker (limitMs : Nat) : TimeoutChecker :=
  { startTime := 0, limitMs := limitMs, timedOut := false, started := false }

/-- Source start(): record the timer reading, clear the timed-out flag. -/
def TimeoutChecker.start (c : TimeoutChecker) (now : Nat) : TimeoutChecker :=
  { c with startTime := now, timedOut := false, started := true }

/-- Per-execution context (ExecutionContext in resource-tracker.ts). -/
structure ExecutionContext where
  gasMeter : GasMeter
  timeoutChecker : TimeoutChecker
  hostErrors : List SandboxError
deriving DecidableEq, Repr

/-- Configuration slice handed to createExecutionContext. -/
structure ResourceTrackerConfig where
  maxGas : Nat
  maxExecutionMs : Nat
  maxMemoryBytes : Nat
deriving DecidableEq, Repr

/-- Source createExecutionContext: fresh gas meter, fresh checker, no errors. -/
def createExecutionContext (config : ResourceTrackerConfig) : ExecutionContext :=
  { gasMeter := createGasMeter config.maxGas
    timeoutChecker := createTimeoutChecker config.maxExecutionMs
    hostErrors := [] }

/-- Source buildResourceMetrics.  `elapsedNow` is the checker's elapsedMs
getter value at build time (timer() - startTime), supplied by the clock
oracle. -/
def buildResourceMetrics (ctx : ExecutionContext) (elapsedNow : Nat)
    (memory : Option WasmMemory) (config : ResourceTrackerConfig) : ResourceMetrics :=
  { memoryUsedBytes := getMemoryUsageBytes memory
    memoryLimitBytes := config.maxMemoryBytes
    gasUsed := ctx.gasMeter.gasUsed
    gasLimit := config.maxGas
    executionMs := elapsedNow
    executionLimitMs := config.maxExecutionMs }

-- ---------------------------------------------------------------------------
-- Internal state (src/internal-types.ts)
-- ---------------------------------------------------------------------------

/-- WASM page size in bytes (WASM_PAGE_SIZE). -/
def WASM_PAGE_SIZE : Nat := 65536

/-- Source bytesToPages: Math.ceil(bytes / 65536). -/
def bytesToPages (bytes : Nat) : Nat :=
  (bytes + WASM_PAGE_SIZE - 1) / WASM_PAGE_SIZE

/-- Mutable internal state of an instance (InternalSandboxState).  The live
WebAssembly.Instance handle is modelled by the names of its function
exports, which is all the executor inspects. -/
structure InternalSandboxState where
  id : String
  config : SandboxConfig
  status : SandboxStatus
  metrics : ResourceMetrics
  wasmMemory : Option WasmMemory
  wasmModule : Option Unit
  wasmInstance : Option (List String)
  executionContext : Option ExecutionContext
  prng : Option PrngState

/-- Public read-only projection (SandboxInstance in types.ts). -/
structure SandboxInstance where
  id : String
  config : SandboxConfig
  status : SandboxStatus
  metrics : ResourceMetrics

-- ---------------------------------------------------------------------------
-- Instance factory (src/loader/instance-factory.ts)
-- ---------------------------------------------------------------------------

/-- Source createSandboxInstance.  `counter` models the module-level
instanceCounter at call time.  Memory is allocated with initial 1 page and
maximum bytesToPages(maxMemoryBytes); a fresh one-page buffer is
zero-filled. -/
def createSandboxInstance (config : SandboxConfig) (counter : Nat) :
    SandboxInstance × InternalSandboxState :=
  let id := "sandbox-" ++ toString counter
  let maxPages := bytesToPages config.maxMemoryBytes
  let wasmMemory : WasmMemory :=
    { data := List.replicate WASM_PAGE_SIZE 0, maxPages := maxPages }
  let state : InternalSandboxState :=
    { id := id
      config := config
      status := .created
      metrics :=
        { memoryUsedBytes := wasmMemory.data.length
          memoryLimitBytes := config.maxMemoryBytes
          gasUsed := 0
          gasLimit := config.maxGas
          executionMs := 0
          executionLimitMs := config.maxExecutionMs }
      wasmMemory := some wasmMemory
      wasmModule := none
      wasmInstance := none
      executionContext := none
      prng := some (createPrng config.deterministicSeed) }
  let inst : SandboxInstance :=
    { id := state.id
      config := config
      status := state.status
      metrics := state.metrics }
  (inst, state)

-- ---------------------------------------------------------------------------
-- Import isolation (isolation module, validateModuleImports)
-- ---------------------------------------------------------------------------

/-- Blocked WASI namespaces (BLOCKED_NAMESPACES). -/
def BLOCKED_NAMESPACES : List String :=
  ["wasi_snapshot_preview1", "wasi_unstable", "wasi"]

/-- System-provided import names under env (SYSTEM_PROVIDED_IMPORTS). -/
def SYSTEM_PROVIDED_IMPORTS : List String :=
  ["memory", "__get_time", "__get_random"]

/-- One declared import of a compiled module (ImportEntry).  The field
`moduleNs` is the source's `module` field (the import namespace). -/
structure ImportEntry where
  moduleNs : String
  name : String
  kind : String
deriving DecidableEq, Repr

/-- Validation report (ImportReport). -/
structure ImportReport where
  imports : List ImportEntry
  totalImports : Nat
  hostFunctionImports : Nat
  systemImports : Nat
deriving DecidableEq, Repr

/-- Key membership in the host-function map (`imp.name in config.hostFunctions`). -/
def hostFunctionsHasKey (hostFunctions : List (String × HostFunction)) (k : String) : Bool :=
  hostFunctions.any (fun kv => kv.1 == k)

/-- Loop body of validateModuleImports: walk the declared imports in order,
accumulating entries and counters, returning the first rejection. -/
def validateImportsGo (config : SandboxConfig) :
    List ImportEntry → List ImportEntry → Nat → Nat →
    Except SandboxError ImportReport
  | [], entries, hostCount, sysCount =>
      .ok { imports := entries.reverse
            totalImports := entries.length
            hostFunctionImports := hostCount
            systemImports := sysCount }
  | imp :: rest, entries, hostCount, sysCount =>
      let entries := imp :: entries
      if BLOCKED_NAMESPACES.contains imp.moduleNs then
        .error (.invalidModuleErr
          ("WASM module imports from blocked namespace " ++ imp.moduleNs ++
           " (import: " ++ imp.name ++
           "). WASI and system interfaces are not allowed in deterministic sandboxes."))
      else if imp.moduleNs ≠ "env" then
        .error (.invalidModuleErr
          ("WASM module imports from undeclared namespace " ++ imp.moduleNs ++
           " (import: " ++ imp.name ++ "). Only the env namespace is supported."))
      else if SYSTEM_PROVIDED_IMPORTS.contains imp.name then
        validateImportsGo config rest entries hostCount (sysCount + 1)
      else if hostFunctionsHasKey config.hostFunctions imp.name then
        validateImportsGo config rest entries (hostCount + 1) sysCount
      else
        .error (.invalidModuleErr
          ("WASM module imports undeclared function env." ++ imp.name ++
           ". Only declared host functions and system imports" ++
           " (memory, __get_time, __get_random) are allowed."))

/-- Source validateModuleImports: the compiled module is represented by its
list of declared imports. -/
def validateModuleImports (imports : List ImportEntry) (config : SandboxConfig) :
    Except SandboxError ImportReport :=
  validateImportsGo config imports [] 0 0

-- ---------------------------------------------------------------------------
-- Import object construction (instantiator buildImportObject and
-- host-bridge buildHostImports)
-- ---------------------------------------------------------------------------

/-- Value bound in the env import record.  Closures are represented by what
they capture; their runtime behaviour is not needed for the binding claims.
`envWrapper` is the instantiator's wrapper (charges gas, checks the
deadline, re-raises handler failures with a decorated message);
`bridgeWrapper` is the host-bridge wrapper (captures handler failures and
returns 0). -/
inductive ImportValue where
  | memoryVal
  | getTimeClosure (eventTimestamp : Nat)
  | getRandomClosure
  | envWrapper (fn : HostFunction)
  | bridgeWrapper (fn : HostFunction)

/-- JavaScript object lookup over a list of property assignments in
program order: the last assignment of a key wins. -/
def jsObjGet (assignments : List (String × ImportValue)) (k : String) : Option ImportValue :=
  (assignments.reverse.find? (fun kv => kv.1 == k)).map (fun kv => kv.2)

/-- Source buildImportObject (instantiator): assignments to the env record
in program order — memory (when present), __get_time, __get_random, then
one entry per host function, assigned at envImports[key] where key is the
map key from config.hostFunctions. -/
def buildImportObject (state : InternalSandboxState) : List (String × ImportValue) :=
  (match state.wasmMemory with
    | some _ => [("memory", ImportValue.memoryVal)]
    | none => []) ++
  [("__get_time", ImportValue.getTimeClosure state.config.eventTimestamp),
   ("__get_random", ImportValue.getRandomClosure)] ++
  state.config.hostFunctions.map (fun kv => (kv.1, ImportValue.envWrapper kv.2))

/-- Source buildHostImports (host-bridge): one entry per host function,
assigned at imports[hostFn.name] — the name field, not the map key. -/
def buildHostImports (hostFunctions : List (String × HostFunction)) :
    List (String × ImportValue) :=
  hostFunctions.map (fun kv => (kv.2.name, ImportValue.bridgeWrapper kv.2))

-- ---------------------------------------------------------------------------
-- Snapshot codec (src/snapshot/serializer.ts constants,
-- deserializer restoreSnapshot)
-- ---------------------------------------------------------------------------

/-- Magic bytes WSNP (SNAPSHOT_MAGIC). -/
def SNAPSHOT_MAGIC : List Nat := [0x57, 0x53, 0x4e, 0x50]

/-- Snapshot format version (SNAPSHOT_VERSION). -/
def SNAPSHOT_VERSION : Nat := 1

/-- Header size: 4 magic bytes + 1 version byte (HEADER_SIZE). -/
def HEADER_SIZE : Nat := 5

/-- DataView getUint32 little-endian at a byte offset. -/
def leU32 (data : List Nat) (off : Nat) : Nat :=
  data.getD off 0 + data.getD (off + 1) 0 * 256 +
  data.getD (off + 2) 0 * 65536 + data.getD (off + 3) 0 * 16777216

/-- Magic byte comparison loop of restoreSnapshot. -/
def magicMatches (data : List Nat) : Bool :=
  (List.range SNAPSHOT_MAGIC.length).all
    (fun i => data.getD i 0 == SNAPSHOT_MAGIC.getD i 0)

/-- Version byte of a snapshot: data[HEADER_SIZE - 1]. -/
def snapVersion (data : List Nat) : Nat :=
  data.getD (HEADER_SIZE - 1) 0

/-- Parsed state JSON of a snapshot (SnapshotStateJson). -/
structure SnapshotStateJson where
  prngState : PrngState
  timestamp : Nat
  gasUsed : Nat
deriving DecidableEq, Repr

/-- Uint8Array.set at offset 0: overwrite the first `src.length` bytes of
`dst`, keeping the rest. -/
def bufferSetAtZero (dst src : List Nat) : List Nat :=
  src ++ dst.drop src.length

/-- Source restoreSnapshot.  `jsonParse` models TextDecoder + JSON.parse on
the state-section bytes (external library code): none when JSON.parse
throws.  Returns the result together with the instance state after the
call. -/
def restoreSnapshot (jsonParse : List Nat → Option SnapshotStateJson)
    (state : InternalSandboxState) (data : List Nat) :
    Except SandboxError Unit × InternalSandboxState :=
  if state.status = .destroyed then
    (.error (.snapshotErr "Cannot restore into a destroyed instance"), state)
  else if state.status = .created then
    (.error (.snapshotErr "Cannot restore into an instance that has not been loaded"), state)
  else if state.status = .running then
    (.error (.snapshotErr "Cannot restore into a running instance - suspend first"), state)
  else if data.length < HEADER_SIZE then
    (.error (.snapshotErr "Snapshot too small - missing header"), state)
  else if ¬ magicMatches data then
    (.error (.snapshotErr "Invalid snapshot - bad magic bytes"), state)
  else if snapVersion data ≠ SNAPSHOT_VERSION then
    (.error (.snapshotErr
      ("Unsupported snapshot version: " ++ toString (snapVersion data) ++
       " (expected " ++ toString SNAPSHOT_VERSION ++ ")")), state)
  else if data.length < HEADER_SIZE + 4 then
    (.error (.snapshotErr "Snapshot truncated - missing memory length"), state)
  else
    let memoryLength := leU32 data HEADER_SIZE
    let offset1 := HEADER_SIZE + 4
    if data.length < offset1 + memoryLength then
      (.error (.snapshotErr "Snapshot truncated - memory section incomplete"), state)
    else
      let memoryBytes := (data.drop offset1).take memoryLength
      let offset2 := offset1 + memoryLength
      if data.length < offset2 + 4 then
        (.error (.snapshotErr "Snapshot truncated - missing state length"), state)
      else
        let stateLength := leU32 data offset2
        let offset3 := offset2 + 4
        if data.length < offset3 + stateLength then
          (.error (.snapshotErr "Snapshot truncated - state section incomplete"), state)
        else
          let stateJsonBytes := (data.drop offset3).take stateLength
          match jsonParse stateJsonBytes with
          | none =>
              (.error (.snapshotErr "Invalid snapshot - corrupted state JSON"), state)
          | some stateJson =>
              match state.wasmMemory with
              | none =>
                  (.error (.snapshotErr "No WASM memory available for restore"), state)
              | some mem =>
                  if memoryLength ≠ mem.data.length then
                    (.error (.snapshotErr
                      ("Snapshot memory size (" ++ toString memoryLength ++
                       ") does not match instance memory (" ++
                       toString mem.data.length ++ ")")), state)
                  else
                    let state' : InternalSandboxState :=
                      { state with
                        wasmMemory := some { mem with data := bufferSetAtZero mem.data memoryBytes }
                        prng := match state.prng with
                          | none => none
                          | some p => some (prngSetState p stateJson.prngState)
                        metrics := { state.metrics with gasUsed := stateJson.gasUsed }
                        status := .loaded }
                    (.ok (), state')

-- ---------------------------------------------------------------------------
-- Executor (src/execution/executor.ts)
-- ---------------------------------------------------------------------------

/-- Payload tags the executor dispatches on (isDirectPayload): direct mode
for null, a number, or an array of numbers; JSON mode otherwise. -/
inductive Payload where
  | nullp
  | num (n : Int)
  | nums (l : List Int)
  | jsonVal (text : String)

/-- Exceptions the try block of execute() can propagate: the two internal
signals, or any other error with its message. -/
inductive Thrown where
  | gasSignal (gasUsed gasLimit : Nat)
  | timeoutSignal (elapsedMs limitMs : Nat)
  | otherError (message : String)

/-- Observable effects of running the WASM call: the execution context after
all host-call mutations, the linear memory after possible growth, and the
checker's elapsedMs reading at metrics-build time. -/
structure RunEffects where
  ctxAfter : ExecutionContext
  memAfter : Option WasmMemory
  elapsedAtBuild : Nat

/-- Outcome of the WASM engine running the exported function: a returned
value or a thrown exception, with the side effects either way. -/
inductive RunOutcome (V : Type) where
  | normal (value : V) (eff : RunEffects)
  | thrown (sig : Thrown) (eff : RunEffects)

/-- Result of execute() (ExecutionResult in types.ts): ok carries the value,
the metrics, and the mirrored gasUsed and durationMs; err carries only the
typed error. -/
inductive ExecutionResult (V : Type) where
  | ok (value : V) (metrics : ResourceMetrics) (gasUsed durationMs : Nat)
  | err (error : SandboxError)

/-- Metrics carried by an ExecutionResult, when any. -/
def ExecutionResult.metricsOf {V : Type} : ExecutionResult V → Option ResourceMetrics
  | .ok _ m _ _ => some m
  | .err _ => none

/-- Status name interpolated into the invalid_state message. -/
def statusName : SandboxStatus → String
  | .created => "created"
  | .loaded => "loaded"
  | .running => "running"
  | .suspended => "suspended"
  | .destroyed => "destroyed"

/-- Tracker configuration slice the executor hands to
createExecutionContext. -/
def executeTrackerConfig (state : InternalSandboxState) : ResourceTrackerConfig :=
  { maxGas := state.config.maxGas
    maxExecutionMs := state.config.maxExecutionMs
    maxMemoryBytes := state.config.maxMemoryBytes }

/-- Instance state as the host-call closures see it during the call: the
fresh started execution context is attached and status is running. -/
def executeRunState (state : InternalSandboxState) (startNow : Nat) :
    InternalSandboxState :=
  let ctx0 := createExecutionContext (executeTrackerConfig state)
  let ctx1 := { ctx0 with timeoutChecker := ctx0.timeoutChecker.start startNow }
  { state with executionContext := some ctx1, status := .running }

/-- Source execute().  The WASM engine and the clock are oracles: `startNow`
is the timer reading taken by timeoutChecker.start(), and `run` maps the
instance state (as visible to host-call closures during the call) and the
payload to the outcome of the try block's WASM invocation.  Returns the
ExecutionResult together with the instance state after the call. -/
def executeWith {V : Type} (state : InternalSandboxState) (action : String)
    (payload : Payload) (startNow : Nat)
    (run : InternalSandboxState → Payload → RunOutcome V) :
    ExecutionResult V × InternalSandboxState :=
  if state.status = .destroyed then
    (.err (.instanceDestroyedErr state.id), state)
  else if ¬ (state.status = .loaded ∨ state.status = .running) then
    (.err (.wasmTrapErr "invalid_state"
      ("Cannot execute: instance status is " ++ statusName state.status)), state)
  else
    match state.wasmInstance with
    | none =>
        (.err (.wasmTrapErr "no_instance"
          "No WASM instance available - load a module first"), state)
    | some exps =>
        if ¬ exps.contains action then
          (.err (.wasmTrapErr "missing_export"
            ("WASM module does not export a function named " ++ action)), state)
        else
          let trackerConfig := executeTrackerConfig state
          let previousStatus := state.status
          let stRun := executeRunState state startNow
          match run stRun payload with
          | .normal value eff =>
              let stAfter := { stRun with
                wasmMemory := eff.memAfter, executionContext := some eff.ctxAfter }
              let memCheck := checkMemoryLimit eff.memAfter state.config.maxMemoryBytes
              if memCheck.exceeded then
                (.err (createMemoryExceededError memCheck),
                 { stAfter with status := previousStatus, executionContext := none })
              else
                let updatedMetrics :=
                  buildResourceMetrics eff.ctxAfter eff.elapsedAtBuild eff.memAfter trackerConfig
                (.ok value updatedMetrics updatedMetrics.gasUsed updatedMetrics.executionMs,
                 { stAfter with
                   metrics := updatedMetrics, status := previousStatus,
                   executionContext := none })
          | .thrown sig eff =>
              let errorMetrics :=
                buildResourceMetrics eff.ctxAfter eff.elapsedAtBuild eff.memAfter trackerConfig
              let stFinal := { stRun with
                wasmMemory := eff.memAfter, metrics := errorMetrics,
                status := previousStatus, executionContext := none }
              match sig with
              | .gasSignal g l => (.err (.gasExhaustedErr g l), stFinal)
              | .timeoutSignal e l => (.err (.timeoutErr e l), stFinal)
              | .otherError msg => (.err (.wasmTrapErr "runtime_error" msg), stFinal)

-- ---------------------------------------------------------------------------
-- Shared lemmas
-- ---------------------------------------------------------------------------

/-- Consume never changes the configured gas limit. -/
theorem GasMeter.consume_gasLimit (m : GasMeter) (amount : Nat) :
    (m.consume amount).1.gasLimit = m.gasLimit := by
  unfold GasMeter.consume
  split_ifs <;> rfl

/-- Any sequence of consume calls preserves the configured gas limit. -/
theorem runConsumes_gasLimit (m : GasMeter) (amounts : List Nat) :
    (runConsumes m amounts).gasLimit = m.gasLimit := by
  induction amounts generalizing m with
  | nil => rfl
  | cons a rest ih =>
      rw [runConsumes, ih, GasMeter.consume_gasLimit]

-- ---------------------------------------------------------------------------
-- C2: gas meter consume behaviour
-- ---------------------------------------------------------------------------

/-- C2 counterexample.  On a meter created with limit 1, consume(2) raises
and sets gas_used to 2; a further consume(5) raises again (the meter is
already exhausted) but does NOT add the amount: gas_used stays 2 instead of
becoming 7.  This refutes the claim that in the raising case the amount is
always added to gas_used. -/
theorem c2_counterexample :
    (((createGasMeter 1).consume 2).1.consume 5).2.isSome = true ∧
    (((createGasMeter 1).consume 2).1.consume 5).1.gasUsed = 2 ∧
    ¬ ((((createGasMeter 1).consume 2).1.consume 5).1.gasUsed =
        ((createGasMeter 1).consume 2).1.gasUsed + 5) := by
  decide

/-- C2 (amended): on any meter reached from createGasMeter(L) by a sequence
of consume calls, consume(amount) raises exactly when the meter is already
exhausted or gas_used + amount > L; exact budget consumption (gas_used +
amount = L) succeeds; in the newly-exceeding case the meter is marked
exhausted and the amount is added so the signal records the exceeding
value together with L; in the already-exhausted case the meter is left
unchanged and the signal carries the current gas_used and L. -/
theorem c2_gas_meter_consume (L : Nat) (amounts : List Nat) (m : GasMeter)
    (hm : m = runConsumes (createGasMeter L) amounts) (amount : Nat) :
    ((m.consume amount).2.isSome = true ↔
        (m.exhausted = true ∨ L < m.gasUsed + amount)) ∧
    (m.exhausted = false → m.gasUsed + amount = L →
        m.consume amount = ({ m with gasUsed := L }, none)) ∧
    (m.exhausted = false → L < m.gasUsed + amount →
        m.consume amount =
          ({ m with exhausted := true, gasUsed := m.gasUsed + amount },
           some { gasUsed := m.gasUsed + amount, gasLimit := L })) ∧
    (m.exhausted = true →
        m.consume amount = (m, some { gasUsed := m.gasUsed, gasLimit := L })) := by
  have hL : m.gasLimit = L := by
    rw [hm, runConsumes_gasLimit]
    rfl
  subst hL
  refine ⟨?_, ?_, ?_, ?_⟩
  · unfold GasMeter.consume
    rcases Bool.eq_false_or_eq_true m.exhausted with h1 | h1 <;>
      by_cases h2 : m.gasLimit < m.gasUsed + amount <;>
        simp [h1, h2]
  · intro hex hsum
    unfold GasMeter.consume
    rw [hsum]
    simp [hex]
  · intro hex hlt
    unfold GasMeter.consume
    simp [hex, hlt]
  · intro hex
    unfold GasMeter.consume
    simp [hex]

/-- C2 witness: on the meter reached by consuming 2 from a fresh limit-5
meter, consume(4) raises (2 + 4 > 5). -/
theorem c2_gas_meter_consume_witness :
    ((runConsumes (createGasMeter 5) [2]).consume 4).2.isSome = true := by
  have h := c2_gas_meter_consume 5 [2] (runConsumes (createGasMeter 5) [2]) rfl 4
  exact h.1.mpr (Or.inr (by decide))

-- ---------------------------------------------------------------------------
-- C5: Mulberry32 PRNG
-- ---------------------------------------------------------------------------

/-- Step function exactly as the claim words it: advance the state to
t = (state + 0x6D2B79F5) | 0 and return (t2 ^ (t2 >>> 14)) >>> 0 where
t1 = imul(t ^ (t >>> 15), t | 1) and
t2 = (t1 + imul(t1 ^ (t1 >>> 7), t1 | 61)) ^ t1, with 32-bit imul and
unsigned right-shift semantics on residues below 2^32. -/
def claimMulberryStep (state : Nat) : Nat × Nat :=
  let t := (state + 0x6d2b79f5) % U32
  let t1 := imul32 (Nat.xor t (t >>> 15)) (Nat.lor t 1)
  let t2 := Nat.xor ((t1 + imul32 (Nat.xor t1 (t1 >>> 7)) (Nat.lor t1 61)) % U32) t1
  (Nat.xor t2 (t2 >>> 14), t)

/-- C5: the PRNG is Mulberry32 with one 32-bit state word: the source step
equals the step the claim prescribes, each next() advances the state to
(state + 0x6D2B79F5) mod 2^32, and any two PRNGs constructed from seeds
with the same 32-bit coercion produce identical k-length output sequences
for every k. -/
theorem c5_prng_mulberry32 :
    (∀ st : Nat, mulberry32Step st = claimMulberryStep st) ∧
    (∀ p : PrngState, (prngNext p).2.current = (p.current + 0x6d2b79f5) % U32) ∧
    (∀ s1 s2 k : Nat, s1 % U32 = s2 % U32 →
        prngOutputs (createPrng s1) k = prngOutputs (createPrng s2) k) := by
  refine ⟨fun st => rfl, fun p => rfl, fun s1 s2 k h => ?_⟩
  unfold createPrng
  rw [h]

/-- C5 witness: seeds 4294967303 and 7 coincide modulo 2^32, so the two
generators produce the same 3-length sequence. -/
theorem c5_prng_mulberry32_witness :
    (4294967303 : Nat) % U32 = 7 % U32 ∧
    prngOutputs (createPrng 4294967303) 3 = prngOutputs (createPrng 7) 3 := by
  have h : (4294967303 : Nat) % U32 = 7 % U32 := by decide
  exact ⟨h, c5_prng_mulberry32.2.2 4294967303 7 3 h⟩

-- ---------------------------------------------------------------------------
-- C7: instance creation
-- ---------------------------------------------------------------------------

/-- Concrete configuration used by the C7 counterexample (the source
defaults: 16 MB, 1e6 gas, 50 ms). -/
def c7Config : SandboxConfig :=
  { maxMemoryBytes := 16777216, maxGas := 1000000, maxExecutionMs := 50
    hostFunctions := [], deterministicSeed := 0, eventTimestamp := 1700000000000 }

/-- C7 counterexample.  A freshly created instance has
metrics.memoryUsedBytes = 65536 (the one-page initial buffer), not zero:
the claim that every metric field of a new instance equals zero is false. -/
theorem c7_counterexample :
    (createSandboxInstance c7Config 0).2.metrics.memoryUsedBytes = 65536 ∧
    (createSandboxInstance c7Config 0).2.metrics.memoryUsedBytes ≠ 0 := by
  have h : (createSandboxInstance c7Config 0).2.metrics.memoryUsedBytes =
      (List.replicate WASM_PAGE_SIZE (0 : Nat)).length := rfl
  rw [h, List.length_replicate]
  exact ⟨rfl, by decide⟩

/-- C7 (amended): create(config) allocates linear memory with maximum pages
ceil(maxMemoryBytes / 65536) (characterised as the least page multiple
covering the cap) and an initial one-page zero-filled buffer, seeds a fresh
PRNG from deterministic_seed, sets status to created, and returns a
projection mirroring the internal state; the usage counters gasUsed and
executionMs start at zero and the limit fields mirror the config, but
memoryUsedBytes equals the initial buffer size 65536, not zero. -/
theorem c7_create_sandbox_instance (config : SandboxConfig) (counter : Nat) :
    ((createSandboxInstance config counter).2.wasmMemory =
      some { data := List.replicate WASM_PAGE_SIZE 0
             maxPages := bytesToPages config.maxMemoryBytes }) ∧
    (config.maxMemoryBytes ≤ WASM_PAGE_SIZE * bytesToPages config.maxMemoryBytes ∧
      WASM_PAGE_SIZE * bytesToPages config.maxMemoryBytes <
        config.maxMemoryBytes + WASM_PAGE_SIZE) ∧
    ((createSandboxInstance config counter).2.metrics =
      { memoryUsedBytes := WASM_PAGE_SIZE
        memoryLimitBytes := config.maxMemoryBytes
        gasUsed := 0
        gasLimit := config.maxGas
        executionMs := 0
        executionLimitMs := config.maxExecutionMs }) ∧
    ((createSandboxInstance config counter).2.prng =
      some (createPrng config.deterministicSeed)) ∧
    ((createSandboxInstance config counter).2.status = .created) ∧
    ((createSandboxInstance config counter).1.id =
        (createSandboxInstance config counter).2.id ∧
     (createSandboxInstance config counter).1.config = config ∧
     (createSandboxInstance config counter).1.status = .created ∧
     (createSandboxInstance config counter).1.metrics =
        (createSandboxInstance config counter).2.metrics) := by
  refine ⟨rfl, ?_, ?_, rfl, rfl, rfl, rfl, rfl, rfl⟩
  · unfold bytesToPages WASM_PAGE_SIZE
    have hdm := Nat.div_add_mod (config.maxMemoryBytes + 65536 - 1) 65536
    have hlt : (config.maxMemoryBytes + 65536 - 1) % 65536 < 65536 :=
      Nat.mod_lt _ (by omega)
    omega
  · have h : (createSandboxInstance config counter).2.metrics =
        { memoryUsedBytes := (List.replicate WASM_PAGE_SIZE (0 : Nat)).length
          memoryLimitBytes := config.maxMemoryBytes
          gasUsed := 0
          gasLimit := config.maxGas
          executionMs := 0
          executionLimitMs := config.maxExecutionMs } := rfl
    rw [h, List.length_replicate]

-- ---------------------------------------------------------------------------
-- C8: host function binding names
-- ---------------------------------------------------------------------------

/-- Last host-function entry assigned under a map key (JavaScript object
assignment semantics: the last assignment of a key wins). -/
def lastAssoc (l : List (String × HostFunction)) (k : String) : Option HostFunction :=
  (l.reverse.find? (fun kv => kv.1 == k)).map (fun kv => kv.2)

/-- Host function whose map key and name field differ, for the C8
counterexample. -/
def c8Fn : HostFunction :=
  { name := "actual_name", params := [], results := [], handler := fun _ => none }

/-- Instance state declaring c8Fn under the map key myKey. -/
def c8State : InternalSandboxState :=
  { id := "sandbox-0"
    config :=
      { maxMemoryBytes := 65536, maxGas := 10, maxExecutionMs := 50
        hostFunctions := [("myKey", c8Fn)], deterministicSeed := 0, eventTimestamp := 0 }
    status := .loaded
    metrics :=
      { memoryUsedBytes := 0, memoryLimitBytes := 65536, gasUsed := 0, gasLimit := 10
        executionMs := 0, executionLimitMs := 50 }
    wasmMemory := none, wasmModule := none, wasmInstance := none
    executionContext := none, prng := none }

/-- C8 counterexample.  With a host function declared under map key myKey
whose name field is actual_name, the instantiation import table binds it at
env.myKey and binds nothing at env.actual_name — the opposite of the claim
that the name field is authoritative. -/
theorem c8_counterexample :
    jsObjGet (buildImportObject c8State) "actual_name" = none ∧
    jsObjGet (buildImportObject c8State) "myKey" = some (.envWrapper c8Fn) := by
  exact ⟨rfl, rfl⟩

/-- C8 (amended): the import table built at instantiation
(buildImportObject) binds each declared host function at env.<map key> —
the last declaration of a key wins — and never binds a wrapper under a
name that is not a map key; the host-bridge helper buildHostImports does
bind under the HostFunction name field, but it is not the table used at
instantiation. -/
theorem c8_import_binding :
    (∀ (state : InternalSandboxState) (k : String) (fn : HostFunction),
        lastAssoc state.config.hostFunctions k = some fn →
        jsObjGet (buildImportObject state) k = some (.envWrapper fn)) ∧
    (∀ (state : InternalSandboxState) (n : String),
        (∀ kv ∈ state.config.hostFunctions, kv.1 ≠ n) →
        ∀ fn : HostFunction,
          jsObjGet (buildImportObject state) n ≠ some (.envWrapper fn)) ∧
    (∀ (fns : List (String × HostFunction)) (n : String),
        (∃ kv ∈ fns, kv.2.name = n) →
        ∃ fn', jsObjGet (buildHostImports fns) n = some (.bridgeWrapper fn') ∧
          fn'.name = n) := by
  refine ⟨?_, ?_, ?_⟩
  · intro state k fn hlast
    unfold lastAssoc at hlast
    rcases Option.map_eq_some'.mp hlast with ⟨kv0, hfind, hkv0⟩
    unfold jsObjGet buildImportObject
    rw [List.reverse_append, List.reverse_append, ← List.map_reverse,
        List.find?_append]
    have hmapped :
        (state.config.hostFunctions.reverse.map
            (fun kv => (kv.1, ImportValue.envWrapper kv.2))).find?
          (fun kv => kv.1 == k) =
        (state.config.hostFunctions.reverse.find? (fun kv => kv.1 == k)).map
          (fun kv => (kv.1, ImportValue.envWrapper kv.2)) := by
      rw [List.find?_map]
      rfl
    rw [hmapped, hfind]
    simp [hkv0]
  · intro state n hnone fn
    unfold jsObjGet buildImportObject
    rw [List.reverse_append, List.reverse_append, ← List.map_reverse,
        List.find?_append]
    have hmapped :
        (state.config.hostFunctions.reverse.map
            (fun kv => (kv.1, ImportValue.envWrapper kv.2))).find?
          (fun kv => kv.1 == n) =
        (state.config.hostFunctions.reverse.find? (fun kv => kv.1 == n)).map
          (fun kv => (kv.1, ImportValue.envWrapper kv.2)) := by
      rw [List.find?_map]
      rfl
    have hrevnone : state.config.hostFunctions.reverse.find? (fun kv => kv.1 == n) = none := by
      rw [List.find?_eq_none]
      intro kv hkv
      simp only [beq_iff_eq]
      exact hnone kv (List.mem_reverse.mp hkv)
    rw [hmapped, hrevnone]
    simp only [Option.map_none', Option.none_or]
    intro hcontra
    rcases Option.map_eq_some'.mp hcontra with ⟨q, hq, hq2⟩
    have hqmem := List.mem_of_find?_eq_some hq
    have hqval : q.2 = ImportValue.envWrapper fn := hq2
    rcases List.mem_append.mp hqmem with hmem | hmem
    · have : q = ("__get_random", ImportValue.getRandomClosure) ∨
          q = ("__get_time", ImportValue.getTimeClosure state.config.eventTimestamp) := by
        simpa using hmem
      rcases this with hqeq | hqeq <;>
        · rw [hqeq] at hqval
          exact ImportValue.noConfusion hqval
    · cases hmem' : state.wasmMemory with
      | none =>
          rw [hmem'] at hmem
          simp at hmem
      | some m =>
          rw [hmem'] at hmem
          have hqeq : q = ("memory", ImportValue.memoryVal) := by simpa using hmem
          rw [hqeq] at hqval
          exact ImportValue.noConfusion hqval
  · intro fns n hex
    have hsome : (jsObjGet (buildHostImports fns) n).isSome = true := by
      unfold jsObjGet
      rw [Option.isSome_map']
      rw [List.find?_isSome]
      rcases hex with ⟨kv, hmem, hname⟩
      refine ⟨(kv.2.name, ImportValue.bridgeWrapper kv.2), ?_, ?_⟩
      · rw [List.mem_reverse]
        unfold buildHostImports
        exact List.mem_map.mpr ⟨kv, hmem, rfl⟩
      · simp [hname]
    rcases Option.isSome_iff_exists.mp hsome with ⟨r, hr⟩
    unfold jsObjGet at hr
    rcases Option.map_eq_some'.mp hr with ⟨q, hq, hq2⟩
    have hqmem := List.mem_reverse.mp (List.mem_of_find?_eq_some hq)
    have hqp := List.find?_some hq
    unfold buildHostImports at hqmem
    rcases List.mem_map.mp hqmem with ⟨kv, _hkvmem, hkv⟩
    have hq1 : q.1 = n := by simpa using hqp
    refine ⟨kv.2, ?_, ?_⟩
    · unfold jsObjGet
      rw [hr, ← hq2, ← hkv]
    · have hname : kv.2.name = q.1 := by rw [← hkv]
      rw [hname, hq1]

/-- C8 witness: the host function declared under map key myKey is bound by
the instantiation table at env.myKey (the last assignment of that key). -/
theorem c8_import_binding_witness :
    jsObjGet (buildImportObject c8State) "myKey" = some (.envWrapper c8Fn) := by
  exact c8_import_binding.1 c8State "myKey" c8Fn rfl

-- ---------------------------------------------------------------------------
-- C4: import isolation
-- ---------------------------------------------------------------------------

/-- An import entry counted as system-provided by the validator. -/
def importIsSystem (imp : ImportEntry) : Bool :=
  SYSTEM_PROVIDED_IMPORTS.contains imp.name

/-- An import entry counted as a host-function import by the validator
(not system-provided, declared as a host-function key). -/
def importIsHostFn (config : SandboxConfig) (imp : ImportEntry) : Bool :=
  !importIsSystem imp && hostFunctionsHasKey config.hostFunctions imp.name

/-- An import the validator accepts: namespace env, and either a
system-provided name or a declared host-function key. -/
def importAcceptable (config : SandboxConfig) (imp : ImportEntry) : Prop :=
  imp.moduleNs = "env" ∧
    (importIsSystem imp = true ∨
     hostFunctionsHasKey config.hostFunctions imp.name = true)

instance (config : SandboxConfig) (imp : ImportEntry) :
    Decidable (importAcceptable config imp) := by
  unfold importAcceptable
  infer_instance

/-- When every remaining import is acceptable, the validation loop succeeds
and reports the accumulated entries and counts. -/
theorem validateImportsGo_ok (config : SandboxConfig) (rest : List ImportEntry)
    (entries : List ImportEntry) (hostCount sysCount : Nat)
    (hacc : ∀ imp ∈ rest, importAcceptable config imp) :
    validateImportsGo config rest entries hostCount sysCount =
      .ok { imports := entries.reverse ++ rest
            totalImports := entries.length + rest.length
            hostFunctionImports := hostCount + rest.countP (importIsHostFn config)
            systemImports := sysCount + rest.countP importIsSystem } := by
  induction rest generalizing entries hostCount sysCount with
  | nil =>
      simp [validateImportsGo]
  | cons imp rest ih =>
      obtain ⟨henv, hok⟩ := hacc imp (by simp)
      have hrest : ∀ i ∈ rest, importAcceptable config i :=
        fun i hi => hacc i (by simp [hi])
      have hblocked : BLOCKED_NAMESPACES.contains imp.moduleNs = false := by
        rw [henv]; decide
      have himports : (imp :: entries).reverse ++ rest = entries.reverse ++ imp :: rest := by
        simp
      have hlen : (imp :: entries).length + rest.length =
          entries.length + (imp :: rest).length := by
        rw [List.length_cons, List.length_cons]
        omega
      cases hsys : importIsSystem imp with
      | true =>
          rw [validateImportsGo,
            if_neg (by rw [hblocked]; exact Bool.false_ne_true),
            if_neg (by rw [henv]; exact fun h => h rfl),
            if_pos (show SYSTEM_PROVIDED_IMPORTS.contains imp.name = true from hsys),
            ih _ _ _ hrest]
          have hpredH : importIsHostFn config imp = false := by
            unfold importIsHostFn
            rw [hsys]
            rfl
          have hhost : hostCount + rest.countP (importIsHostFn config) =
              hostCount + (imp :: rest).countP (importIsHostFn config) := by
            rw [List.countP_cons_of_neg _ _ (by rw [hpredH]; exact Bool.false_ne_true)]
          have hsysc : sysCount + 1 + rest.countP importIsSystem =
              sysCount + (imp :: rest).countP importIsSystem := by
            rw [List.countP_cons_of_pos _ _ hsys]
            omega
          rw [himports, hlen, hhost, hsysc]
      | false =>
          have hkey : hostFunctionsHasKey config.hostFunctions imp.name = true := by
            rcases hok with h | h
            · rw [hsys] at h
              exact absurd h Bool.false_ne_true
            · exact h
          rw [validateImportsGo,
            if_neg (by rw [hblocked]; exact Bool.false_ne_true),
            if_neg (by rw [henv]; exact fun h => h rfl),
            if_neg (by
              rw [show SYSTEM_PROVIDED_IMPORTS.contains imp.name = false from hsys]
              exact Bool.false_ne_true),
            if_pos hkey,
            ih _ _ _ hrest]
          have hpredH : importIsHostFn config imp = true := by
            unfold importIsHostFn
            rw [hsys, hkey]
            rfl
          have hhost : hostCount + 1 + rest.countP (importIsHostFn config) =
              hostCount + (imp :: rest).countP (importIsHostFn config) := by
            rw [List.countP_cons_of_pos _ _ hpredH]
            omega
          have hsysc : sysCount + rest.countP importIsSystem =
              sysCount + (imp :: rest).countP importIsSystem := by
            rw [List.countP_cons_of_neg _ _ (by rw [hsys]; exact Bool.false_ne_true)]
          rw [himports, hlen, hhost, hsysc]

/-- When some remaining import is unacceptable, the validation loop fails
with an INVALID_MODULE error. -/
theorem validateImportsGo_err (config : SandboxConfig) (rest : List ImportEntry)
    (entries : List ImportEntry) (hostCount sysCount : Nat)
    (hbad : ∃ imp ∈ rest, ¬ importAcceptable config imp) :
    ∃ r, validateImportsGo config rest entries hostCount sysCount =
      .error (.invalidModuleErr r) := by
  induction rest generalizing entries hostCount sysCount with
  | nil =>
      rcases hbad with ⟨imp, hmem, _⟩
      exact absurd hmem (by simp)
  | cons imp rest ih =>
      cases hb : BLOCKED_NAMESPACES.contains imp.moduleNs with
      | true =>
          exact ⟨_, by rw [validateImportsGo, if_pos hb]⟩
      | false =>
          by_cases henv : imp.moduleNs = "env"
          · cases hsys : SYSTEM_PROVIDED_IMPORTS.contains imp.name with
            | true =>
                have hbadrest : ∃ i ∈ rest, ¬ importAcceptable config i := by
                  rcases hbad with ⟨i, hmem, hni⟩
                  rcases List.mem_cons.mp hmem with heq | hmem'
                  · exact absurd ⟨heq ▸ henv, Or.inl (heq ▸ hsys)⟩ hni
                  · exact ⟨i, hmem', hni⟩
                rcases ih _ _ _ hbadrest with ⟨r, hr⟩
                exact ⟨r, by
                  rw [validateImportsGo,
                    if_neg (by rw [hb]; exact Bool.false_ne_true),
                    if_neg (by rw [henv]; exact fun h => h rfl),
                    if_pos hsys]
                  exact hr⟩
            | false =>
                cases hkey : hostFunctionsHasKey config.hostFunctions imp.name with
                | true =>
                    have hbadrest : ∃ i ∈ rest, ¬ importAcceptable config i := by
                      rcases hbad with ⟨i, hmem, hni⟩
                      rcases List.mem_cons.mp hmem with heq | hmem'
                      · exact absurd ⟨heq ▸ henv, Or.inr (heq ▸ hkey)⟩ hni
                      · exact ⟨i, hmem', hni⟩
                    rcases ih _ _ _ hbadrest with ⟨r, hr⟩
                    exact ⟨r, by
                      rw [validateImportsGo,
                        if_neg (by rw [hb]; exact Bool.false_ne_true),
                        if_neg (by rw [henv]; exact fun h => h rfl),
                        if_neg (by rw [hsys]; exact Bool.false_ne_true),
                        if_pos hkey]
                      exact hr⟩
                | false =>
                    exact ⟨_, by
                      rw [validateImportsGo,
                        if_neg (by rw [hb]; exact Bool.false_ne_true),
                        if_neg (by rw [henv]; exact fun h => h rfl),
                        if_neg (by rw [hsys]; exact Bool.false_ne_true),
                        if_neg (by rw [hkey]; exact Bool.false_ne_true)]⟩
          · exact ⟨_, by
              rw [validateImportsGo,
                if_neg (by rw [hb]; exact Bool.false_ne_true),
                if_pos henv]⟩

/-- C4: import validation rejects (with INVALID_MODULE) any module declaring
an import from a blocked WASI namespace, any import from a namespace other
than env, and any env import that is neither memory, __get_time,
__get_random nor a declared host-function key; when every import passes it
returns the report with total, host-function, and system-provided import
counts. -/
theorem c4_validate_module_imports (imports : List ImportEntry) (config : SandboxConfig) :
    ((∃ imp ∈ imports, BLOCKED_NAMESPACES.contains imp.moduleNs = true) →
        ∃ r, validateModuleImports imports config = .error (.invalidModuleErr r)) ∧
    ((∃ imp ∈ imports, imp.moduleNs ≠ "env") →
        ∃ r, validateModuleImports imports config = .error (.invalidModuleErr r)) ∧
    ((∃ imp ∈ imports, imp.moduleNs = "env" ∧
        importIsSystem imp = false ∧
        hostFunctionsHasKey config.hostFunctions imp.name = false) →
        ∃ r, validateModuleImports imports config = .error (.invalidModuleErr r)) ∧
    ((∀ imp ∈ imports, importAcceptable config imp) →
        validateModuleImports imports config =
          .ok { imports := imports
                totalImports := imports.length
                hostFunctionImports := imports.countP (importIsHostFn config)
                systemImports := imports.countP importIsSystem }) := by
  refine ⟨?_, ?_, ?_, ?_⟩
  · rintro ⟨imp, hmem, hblk⟩
    apply validateImportsGo_err
    refine ⟨imp, hmem, ?_⟩
    rintro ⟨henv, -⟩
    rw [henv] at hblk
    exact absurd hblk (by decide)
  · rintro ⟨imp, hmem, hne⟩
    apply validateImportsGo_err
    exact ⟨imp, hmem, fun hacc => hne hacc.1⟩
  · rintro ⟨imp, hmem, -, hsys, hkey⟩
    apply validateImportsGo_err
    refine ⟨imp, hmem, ?_⟩
    rintro ⟨-, h | h⟩
    · rw [hsys] at h
      exact absurd h Bool.false_ne_true
    · rw [hkey] at h
      exact absurd h Bool.false_ne_true
  · intro hacc
    unfold validateModuleImports
    rw [validateImportsGo_ok config imports [] 0 0 hacc]
    simp

/-- Host function used by the C4 witness. -/
def c4Fn : HostFunction :=
  { name := "foo", params := [.i32], results := [.i32], handler := fun _ => some 0 }

/-- Configuration declaring the host function foo, for the C4 witness. -/
def c4Config : SandboxConfig :=
  { maxMemoryBytes := 65536, maxGas := 10, maxExecutionMs := 50
    hostFunctions := [("foo", c4Fn)], deterministicSeed := 0, eventTimestamp := 0 }

/-- Imports declared by the C4 witness module: memory, __get_time, and the
declared host function foo. -/
def c4Imports : List ImportEntry :=
  [{ moduleNs := "env", name := "memory", kind := "memory" },
   { moduleNs := "env", name := "__get_time", kind := "function" },
   { moduleNs := "env", name := "foo", kind := "function" }]

/-- C4 witness: the all-accepted module validates to a report counting
3 total imports, 1 host-function import, and 2 system imports. -/
theorem c4_validate_module_imports_witness :
    validateModuleImports c4Imports c4Config =
      .ok { imports := c4Imports, totalImports := 3
            hostFunctionImports := 1, systemImports := 2 } := by
  have h := (c4_validate_module_imports c4Imports c4Config).2.2.2 (by decide)
  rw [h]
  rfl

-- ---------------------------------------------------------------------------
-- C1: executor error conversion
-- ---------------------------------------------------------------------------

/-- C1: execute() never raises — it is a total function into tagged
ExecutionResults — and when the WASM call throws, the executor converts the
exception: a GasExhausted signal becomes GAS_EXHAUSTED with the signal's
gas_used and gas_limit, a Timeout signal becomes TIMEOUT with its
elapsed_ms and limit_ms, and any other error becomes WASM_TRAP with
trapKind runtime_error and the error's message. -/
theorem c1_execute_error_conversion {V : Type} (state : InternalSandboxState)
    (action : String) (payload : Payload) (startNow : Nat)
    (run : InternalSandboxState → Payload → RunOutcome V) (exps : List String)
    (hstatus : state.status = .loaded ∨ state.status = .running)
    (hinst : state.wasmInstance = some exps)
    (hexp : action ∈ exps)
    (sig : Thrown) (eff : RunEffects)
    (hrun : run (executeRunState state startNow) payload = .thrown sig eff) :
    (executeWith state action payload startNow run).1 =
      (match sig with
        | .gasSignal g l => .err (.gasExhaustedErr g l)
        | .timeoutSignal e l => .err (.timeoutErr e l)
        | .otherError msg => .err (.wasmTrapErr "runtime_error" msg)) := by
  rcases hstatus with h | h <;>
    cases sig <;>
      simp [executeWith, h, hinst, hexp, hrun]

/-- Loaded instance exporting the function f, shared by the executor
witnesses. -/
def execState : InternalSandboxState :=
  { id := "sandbox-0"
    config :=
      { maxMemoryBytes := 65536, maxGas := 5, maxExecutionMs := 50
        hostFunctions := [], deterministicSeed := 0, eventTimestamp := 0 }
    status := .loaded
    metrics :=
      { memoryUsedBytes := 0, memoryLimitBytes := 65536, gasUsed := 0, gasLimit := 5
        executionMs := 0, executionLimitMs := 50 }
    wasmMemory := none, wasmModule := none, wasmInstance := some ["f"]
    executionContext := none, prng := none }

/-- Run effects used by the executor witnesses. -/
def execEff : RunEffects :=
  { ctxAfter := createExecutionContext (executeTrackerConfig execState)
    memAfter := none
    elapsedAtBuild := 3 }

/-- C1 witness: a gas signal carrying (7, 5) thrown during the call comes
back as a GAS_EXHAUSTED error with those numbers. -/
theorem c1_execute_error_conversion_witness :
    (executeWith execState "f" Payload.nullp 0
        (fun _ _ => RunOutcome.thrown (V := Unit) (.gasSignal 7 5) execEff)).1 =
      .err (.gasExhaustedErr 7 5) := by
  exact c1_execute_error_conversion execState "f" Payload.nullp 0
    (fun _ _ => RunOutcome.thrown (V := Unit) (.gasSignal 7 5) execEff) ["f"]
    (Or.inl rfl) rfl (by simp) (.gasSignal 7 5) execEff rfl

-- ---------------------------------------------------------------------------
-- C6: status raised to running and restored; context attached and detached
-- ---------------------------------------------------------------------------

/-- C6: when the preconditions pass, the state the WASM call observes has
status running and the fresh execution context attached; on every exit path
(success, memory-exceeded, gas exhaustion, timeout, trap) the final state
has the previous status restored and the execution context detached; and
the executor's behaviour depends only on the oracle's behaviour at states
with status running and an attached context. -/
theorem c6_execute_status_restoration {V : Type} (state : InternalSandboxState)
    (action : String) (payload : Payload) (startNow : Nat)
    (run : InternalSandboxState → Payload → RunOutcome V) (exps : List String)
    (hstatus : state.status = .loaded ∨ state.status = .running)
    (hinst : state.wasmInstance = some exps)
    (hexp : action ∈ exps) :
    ((executeWith state action payload startNow run).2.status = state.status ∧
     (executeWith state action payload startNow run).2.executionContext = none) ∧
    ((executeRunState state startNow).status = .running ∧
     (executeRunState state startNow).executionContext =
       some { createExecutionContext (executeTrackerConfig state) with
              timeoutChecker :=
                (createExecutionContext (executeTrackerConfig state)).timeoutChecker.start
                  startNow }) ∧
    (∀ run' : InternalSandboxState → Payload → RunOutcome V,
        (∀ (s : InternalSandboxState) (p : Payload),
            s.status = .running → s.executionContext ≠ none → run s p = run' s p) →
        executeWith state action payload startNow run =
          executeWith state action payload startNow run') := by
  refine ⟨?_, ⟨rfl, rfl⟩, ?_⟩
  · rcases hstatus with h | h <;>
    · cases hout : run (executeRunState state startNow) payload with
      | normal v eff =>
          by_cases hmc :
              (checkMemoryLimit eff.memAfter state.config.maxMemoryBytes).exceeded = true <;>
            simp [executeWith, h, hinst, hexp, hout, hmc]
      | thrown sig eff =>
          cases sig <;> simp [executeWith, h, hinst, hexp, hout]
  · intro run' hagree
    have heq := hagree (executeRunState state startNow) payload rfl
      (fun hc => Option.noConfusion hc)
    simp only [executeWith]
    rw [heq]

/-- C6 witness: on a successful run, the final status equals the status
before the call (loaded) and the context is detached. -/
theorem c6_execute_status_restoration_witness :
    (executeWith execState "f" Payload.nullp 0
        (fun _ _ => RunOutcome.normal (V := Unit) () execEff)).2.status =
      execState.status ∧
    (executeWith execState "f" Payload.nullp 0
        (fun _ _ => RunOutcome.normal (V := Unit) () execEff)).2.executionContext =
      none := by
  exact (c6_execute_status_restoration execState "f" Payload.nullp 0
    (fun _ _ => RunOutcome.normal (V := Unit) () execEff) ["f"]
    (Or.inl rfl) rfl (by simp)).1

-- ---------------------------------------------------------------------------
-- C9: metrics carried by execution results
-- ---------------------------------------------------------------------------

/-- Destroyed instance used by the C9 counterexample. -/
def c9DestroyedState : InternalSandboxState :=
  { execState with status := .destroyed }

/-- C9 counterexample.  ExecutionResult failures carry only the error: the
result returned for a destroyed instance holds no ResourceMetrics value at
all, refuting the claim that every result carries fully populated
metrics. -/
theorem c9_counterexample :
    ((executeWith c9DestroyedState "f" Payload.nullp 0
        (fun _ _ => RunOutcome.normal (V := Unit) () execEff)).1).metricsOf = none := by
  rfl

/-- C9 (amended): every successful ExecutionResult carries a fully
populated ResourceMetrics value — usage read from the final memory, limits
mirrored from the config, gasUsed and elapsed from the execution context —
with gasUsed and durationMs mirrored at top level and the same metrics
stored on the instance; failure results carry only the error and no
metrics value. -/
theorem c9_execute_metrics {V : Type} (state : InternalSandboxState)
    (action : String) (payload : Payload) (startNow : Nat)
    (run : InternalSandboxState → Payload → RunOutcome V) :
    (∀ (v : V) (m : ResourceMetrics) (g d : Nat) (st' : InternalSandboxState),
        executeWith state action payload startNow run = (.ok v m g d, st') →
        m.memoryUsedBytes = getMemoryUsageBytes st'.wasmMemory ∧
        m.memoryLimitBytes = state.config.maxMemoryBytes ∧
        m.gasLimit = state.config.maxGas ∧
        m.executionLimitMs = state.config.maxExecutionMs ∧
        g = m.gasUsed ∧ d = m.executionMs ∧ st'.metrics = m) ∧
    (∀ (e : SandboxError) (st' : InternalSandboxState),
        executeWith state action payload startNow run = (.err e, st') →
        (executeWith state action payload startNow run).1.metricsOf = none) := by
  constructor
  · intro v m g d st' h
    by_cases h1 : state.status = .destroyed
    · simp [executeWith, h1] at h
    · by_cases h2 : state.status = .loaded ∨ state.status = .running
      · cases hinst : state.wasmInstance with
        | none =>
            rcases h2 with h2 | h2 <;> simp [executeWith, h1, h2, hinst] at h
        | some exps =>
            by_cases h3 : action ∈ exps
            · cases hout : run (executeRunState state startNow) payload with
              | normal v' eff =>
                  by_cases hmc :
                      (checkMemoryLimit eff.memAfter
                        state.config.maxMemoryBytes).exceeded = true
                  · rcases h2 with h2 | h2 <;>
                      simp [executeWith, h1, h2, hinst, h3, hout, hmc] at h
                  · rcases h2 with h2 | h2 <;>
                    · simp [executeWith, h1, h2, hinst, h3, hout, hmc,
                        Prod.mk.injEq] at h
                      obtain ⟨⟨hv, hm, hg, hd⟩, hst⟩ := h
                      subst hm
                      rw [← hst]
                      exact ⟨rfl, rfl, rfl, rfl, hg.symm, hd.symm, rfl⟩
              | thrown sig eff =>
                  rcases h2 with h2 | h2 <;>
                    cases sig <;> simp [executeWith, h1, h2, hinst, h3, hout] at h
            · rcases h2 with h2 | h2 <;> simp [executeWith, h1, h2, hinst, h3] at h
      · simp [executeWith, h1, h2] at h
  · intro e st' h
    rw [h]
    rfl

/-- C9 witness: a concrete successful execution returns metrics whose limit
fields mirror the config and which are stored on the instance. -/
theorem c9_execute_metrics_witness :
    (buildResourceMetrics execEff.ctxAfter execEff.elapsedAtBuild execEff.memAfter
        (executeTrackerConfig execState)).memoryLimitBytes =
      execState.config.maxMemoryBytes := by
  have h := (c9_execute_metrics execState "f" Payload.nullp 0
    (fun _ _ => RunOutcome.normal (V := Unit) () execEff)).1 ()
    (buildResourceMetrics execEff.ctxAfter execEff.elapsedAtBuild execEff.memAfter
      (executeTrackerConfig execState))
    (buildResourceMetrics execEff.ctxAfter execEff.elapsedAtBuild execEff.memAfter
      (executeTrackerConfig execState)).gasUsed
    (buildResourceMetrics execEff.ctxAfter execEff.elapsedAtBuild execEff.memAfter
      (executeTrackerConfig execState)).executionMs
    ((executeWith execState "f" Payload.nullp 0
        (fun _ _ => RunOutcome.normal (V := Unit) () execEff)).2) rfl
  exact h.2.1

-- ---------------------------------------------------------------------------
-- C3/C10: snapshot restore
-- ---------------------------------------------------------------------------

/-- Memory-length field of a snapshot (uint32 LE at the header end). -/
def snapMemoryLength (d : List Nat) : Nat := leU32 d HEADER_SIZE

/-- Memory bytes of a snapshot. -/
def snapMemoryBytes (d : List Nat) : List Nat :=
  (d.drop (HEADER_SIZE + 4)).take (snapMemoryLength d)

/-- State-length field of a snapshot (uint32 LE after the memory section). -/
def snapStateLength (d : List Nat) : Nat :=
  leU32 d (HEADER_SIZE + 4 + snapMemoryLength d)

/-- State-JSON bytes of a snapshot. -/
def snapStateBytes (d : List Nat) : List Nat :=
  (d.drop (HEADER_SIZE + 4 + snapMemoryLength d + 4)).take (snapStateLength d)

/-- Every call to restoreSnapshot either fails with a SNAPSHOT_ERROR and
returns the state unchanged, or succeeds with every validation passed and
exactly the documented mutation applied. -/
theorem restoreSnapshot_cases (p : List Nat → Option SnapshotStateJson)
    (s : InternalSandboxState) (d : List Nat) :
    ((restoreSnapshot p s d).2 = s ∧
      ∃ r, (restoreSnapshot p s d).1 = .error (.snapshotErr r)) ∨
    ((restoreSnapshot p s d).1 = .ok () ∧
      HEADER_SIZE ≤ d.length ∧
      magicMatches d = true ∧
      snapVersion d = SNAPSHOT_VERSION ∧
      HEADER_SIZE + 4 ≤ d.length ∧
      HEADER_SIZE + 4 + snapMemoryLength d ≤ d.length ∧
      HEADER_SIZE + 4 + snapMemoryLength d + 4 ≤ d.length ∧
      HEADER_SIZE + 4 + snapMemoryLength d + 4 + snapStateLength d ≤ d.length ∧
      ∃ mem sj, s.wasmMemory = some mem ∧ p (snapStateBytes d) = some sj ∧
        snapMemoryLength d = mem.data.length ∧
        (restoreSnapshot p s d).2 =
          { s with
            wasmMemory := some
              { mem with data := bufferSetAtZero mem.data (snapMemoryBytes d) }
            prng := match s.prng with
              | none => none
              | some pr => some (prngSetState pr sj.prngState)
            metrics := { s.metrics with gasUsed := sj.gasUsed }
            status := .loaded }) := by
  by_cases h1 : s.status = .destroyed
  · exact Or.inl ⟨by simp [restoreSnapshot, h1],
      "Cannot restore into a destroyed instance", by simp [restoreSnapshot, h1]⟩
  by_cases h2 : s.status = .created
  · exact Or.inl ⟨by simp [restoreSnapshot, h1, h2],
      "Cannot restore into an instance that has not been loaded",
      by simp [restoreSnapshot, h1, h2]⟩
  by_cases h3 : s.status = .running
  · exact Or.inl ⟨by simp [restoreSnapshot, h1, h2, h3],
      "Cannot restore into a running instance - suspend first",
      by simp [restoreSnapshot, h1, h2, h3]⟩
  by_cases h4 : d.length < HEADER_SIZE
  · exact Or.inl ⟨by simp [restoreSnapshot, h1, h2, h3, h4],
      "Snapshot too small - missing header", by simp [restoreSnapshot, h1, h2, h3, h4]⟩
  cases hm : magicMatches d with
  | false =>
      exact Or.inl ⟨by simp [restoreSnapshot, h1, h2, h3, h4, hm],
        "Invalid snapshot - bad magic bytes",
        by simp [restoreSnapshot, h1, h2, h3, h4, hm]⟩
  | true =>
  by_cases h6 : snapVersion d = SNAPSHOT_VERSION
  case neg =>
      exact Or.inl ⟨by simp [restoreSnapshot, h1, h2, h3, h4, hm, h6],
        "Unsupported snapshot version: " ++ toString (snapVersion d) ++
          " (expected " ++ toString SNAPSHOT_VERSION ++ ")",
        by simp [restoreSnapshot, h1, h2, h3, h4, hm, h6]⟩
  case pos =>
  by_cases h7 : d.length < HEADER_SIZE + 4
  · exact Or.inl ⟨by simp [restoreSnapshot, h1, h2, h3, h4, hm, h6, h7],
      "Snapshot truncated - missing memory length",
      by simp [restoreSnapshot, h1, h2, h3, h4, hm, h6, h7]⟩
  by_cases h8 : d.length < HEADER_SIZE + 4 + leU32 d HEADER_SIZE
  · exact Or.inl ⟨by simp [restoreSnapshot, h1, h2, h3, h4, hm, h6, h7, h8],
      "Snapshot truncated - memory section incomplete",
      by simp [restoreSnapshot, h1, h2, h3, h4, hm, h6, h7, h8]⟩
  by_cases h9 : d.length < HEADER_SIZE + 4 + leU32 d HEADER_SIZE + 4
  · exact Or.inl ⟨by simp [restoreSnapshot, h1, h2, h3, h4, hm, h6, h7, h8, h9],
      "Snapshot truncated - missing state length",
      by simp [restoreSnapshot, h1, h2, h3, h4, hm, h6, h7, h8, h9]⟩
  by_cases h10 : d.length < HEADER_SIZE + 4 + leU32 d HEADER_SIZE + 4 +
      leU32 d (HEADER_SIZE + 4 + leU32 d HEADER_SIZE)
  · exact Or.inl ⟨by simp [restoreSnapshot, h1, h2, h3, h4, hm, h6, h7, h8, h9, h10],
      "Snapshot truncated - state section incomplete",
      by simp [restoreSnapshot, h1, h2, h3, h4, hm, h6, h7, h8, h9, h10]⟩
  cases hp : p ((d.drop (HEADER_SIZE + 4 + leU32 d HEADER_SIZE + 4)).take
      (leU32 d (HEADER_SIZE + 4 + leU32 d HEADER_SIZE))) with
  | none =>
      exact Or.inl ⟨by simp [restoreSnapshot, h1, h2, h3, h4, hm, h6, h7, h8, h9, h10, hp],
        "Invalid snapshot - corrupted state JSON",
        by simp [restoreSnapshot, h1, h2, h3, h4, hm, h6, h7, h8, h9, h10, hp]⟩
  | some sj =>
  cases hmem : s.wasmMemory with
  | none =>
      exact Or.inl ⟨by simp [restoreSnapshot, h1, h2, h3, h4, hm, h6, h7, h8, h9, h10,
        hp, hmem], "No WASM memory available for restore",
        by simp [restoreSnapshot, h1, h2, h3, h4, hm, h6, h7, h8, h9, h10, hp, hmem]⟩
  | some mem =>
  by_cases hlen : leU32 d HEADER_SIZE = mem.data.length
  case neg =>
      exact Or.inl ⟨by simp [restoreSnapshot, h1, h2, h3, h4, hm, h6, h7, h8, h9, h10,
        hp, hmem, hlen],
        "Snapshot memory size (" ++ toString (leU32 d HEADER_SIZE) ++
          ") does not match instance memory (" ++ toString mem.data.length ++ ")",
        by simp [restoreSnapshot, h1, h2, h3, h4, hm, h6, h7, h8, h9, h10, hp, hmem, hlen]⟩
  case pos =>
      have h8' : ¬ d.length < HEADER_SIZE + 4 + mem.data.length := by
        rw [← hlen]; exact h8
      have h9' : ¬ d.length < HEADER_SIZE + 4 + mem.data.length + 4 := by
        rw [← hlen]; exact h9
      have h10' : ¬ d.length < HEADER_SIZE + 4 + mem.data.length + 4 +
          leU32 d (HEADER_SIZE + 4 + mem.data.length) := by
        rw [← hlen]; exact h10
      have hp' : p ((d.drop (HEADER_SIZE + 4 + mem.data.length + 4)).take
          (leU32 d (HEADER_SIZE + 4 + mem.data.length))) = some sj := by
        rw [← hlen]; exact hp
      refine Or.inr ⟨?_, by omega, rfl, h6, by omega,
        by simp only [snapMemoryLength]; omega,
        by simp only [snapMemoryLength]; omega,
        by simp only [snapMemoryLength, snapStateLength]; omega,
        mem, sj, rfl, ?_, ?_, ?_⟩
      · simp [restoreSnapshot, h1, h2, h3, h4, hm, h6, h7, h8', h9', h10', hp', hmem,
          hlen]
      · simp only [snapStateBytes, snapStateLength, snapMemoryLength]
        exact hp
      · simp only [snapMemoryLength]
        exact hlen
      · simp [restoreSnapshot, h1, h2, h3, h4, hm, h6, h7, h8', h9', h10', hp', hmem,
          hlen, snapMemoryBytes, snapMemoryLength]

/-- C3: on a loaded or suspended instance, restoreSnapshot validates in
order — header length, magic bytes, version, memory-length field, memory
section, state-length field, state section, state-JSON parse, and memory
size equality — reporting the first failing check as a SNAPSHOT_ERROR and
leaving the instance completely unchanged; only when every check passes
does it overwrite the memory bytes, restore the PRNG state, restore
gasUsed in the metrics, and set status to loaded. -/
theorem c3_restore_snapshot_validation (p : List Nat → Option SnapshotStateJson)
    (state : InternalSandboxState) (data : List Nat)
    (hstatus : state.status = .loaded ∨ state.status = .suspended) :
    (∀ e, (restoreSnapshot p state data).1 = .error e →
        (restoreSnapshot p state data).2 = state ∧ ∃ r, e = .snapshotErr r) ∧
    (data.length < HEADER_SIZE →
        (restoreSnapshot p state data).1 =
          .error (.snapshotErr "Snapshot too small - missing header")) ∧
    (HEADER_SIZE ≤ data.length → magicMatches data = false →
        (restoreSnapshot p state data).1 =
          .error (.snapshotErr "Invalid snapshot - bad magic bytes")) ∧
    (HEADER_SIZE ≤ data.length → magicMatches data = true →
        snapVersion data ≠ SNAPSHOT_VERSION →
        (restoreSnapshot p state data).1 =
          .error (.snapshotErr ("Unsupported snapshot version: " ++
            toString (snapVersion data) ++ " (expected " ++
            toString SNAPSHOT_VERSION ++ ")"))) ∧
    (magicMatches data = true → snapVersion data = SNAPSHOT_VERSION →
        HEADER_SIZE ≤ data.length → data.length < HEADER_SIZE + 4 →
        (restoreSnapshot p state data).1 =
          .error (.snapshotErr "Snapshot truncated - missing memory length")) ∧
    (magicMatches data = true → snapVersion data = SNAPSHOT_VERSION →
        HEADER_SIZE + 4 ≤ data.length →
        data.length < HEADER_SIZE + 4 + snapMemoryLength data →
        (restoreSnapshot p state data).1 =
          .error (.snapshotErr "Snapshot truncated - memory section incomplete")) ∧
    (magicMatches data = true → snapVersion data = SNAPSHOT_VERSION →
        HEADER_SIZE + 4 + snapMemoryLength data ≤ data.length →
        data.length < HEADER_SIZE + 4 + snapMemoryLength data + 4 →
        (restoreSnapshot p state data).1 =
          .error (.snapshotErr "Snapshot truncated - missing state length")) ∧
    (magicMatches data = true → snapVersion data = SNAPSHOT_VERSION →
        HEADER_SIZE + 4 + snapMemoryLength data + 4 ≤ data.length →
        data.length < HEADER_SIZE + 4 + snapMemoryLength data + 4 + snapStateLength data →
        (restoreSnapshot p state data).1 =
          .error (.snapshotErr "Snapshot truncated - state section incomplete")) ∧
    (magicMatches data = true → snapVersion data = SNAPSHOT_VERSION →
        HEADER_SIZE + 4 + snapMemoryLength data + 4 + snapStateLength data ≤ data.length →
        p (snapStateBytes data) = none →
        (restoreSnapshot p state data).1 =
          .error (.snapshotErr "Invalid snapshot - corrupted state JSON")) ∧
    (∀ sj mem, magicMatches data = true → snapVersion data = SNAPSHOT_VERSION →
        HEADER_SIZE + 4 + snapMemoryLength data + 4 + snapStateLength data ≤ data.length →
        p (snapStateBytes data) = some sj → state.wasmMemory = some mem →
        snapMemoryLength data ≠ mem.data.length →
        (restoreSnapshot p state data).1 =
          .error (.snapshotErr ("Snapshot memory size (" ++
            toString (snapMemoryLength data) ++
            ") does not match instance memory (" ++
            toString mem.data.length ++ ")"))) ∧
    ((restoreSnapshot p state data).1 = .ok () →
        HEADER_SIZE ≤ data.length ∧ magicMatches data = true ∧
        snapVersion data = SNAPSHOT_VERSION ∧
        HEADER_SIZE + 4 + snapMemoryLength data + 4 + snapStateLength data ≤ data.length ∧
        ∃ mem sj, state.wasmMemory = some mem ∧ p (snapStateBytes data) = some sj ∧
          snapMemoryLength data = mem.data.length ∧
          (restoreSnapshot p state data).2 =
            { state with
              wasmMemory := some
                { mem with data := bufferSetAtZero mem.data (snapMemoryBytes data) }
              prng := match state.prng with
                | none => none
                | some pr => some (prngSetState pr sj.prngState)
              metrics := { state.metrics with gasUsed := sj.gasUsed }
              status := .loaded }) := by
  have hns : ¬ state.status = .destroyed ∧ ¬ state.status = .created ∧
      ¬ state.status = .running := by
    rcases hstatus with h | h <;> rw [h] <;> refine ⟨?_, ?_, ?_⟩ <;> intro hc <;>
      exact SandboxStatus.noConfusion hc
  obtain ⟨h1, h2, h3⟩ := hns
  refine ⟨?_, ?_, ?_, ?_, ?_, ?_, ?_, ?_, ?_, ?_, ?_⟩
  · intro e he
    rcases restoreSnapshot_cases p state data with ⟨hframe, r, herr⟩ | ⟨hok, -⟩
    · rw [herr] at he
      refine ⟨hframe, r, ?_⟩
      exact (Except.error.injEq _ _).mp he.symm
    · rw [hok] at he
      exact absurd he (by simp)
  · intro hlt
    simp [restoreSnapshot, h1, h2, h3, hlt]
  · intro hge hmagic
    have hn4 : ¬ data.length < HEADER_SIZE := by omega
    simp [restoreSnapshot, h1, h2, h3, hn4, hmagic]
  · intro hge hmagic hver
    have hn4 : ¬ data.length < HEADER_SIZE := by omega
    simp [restoreSnapshot, h1, h2, h3, hn4, hmagic, hver]
  · intro hmagic hver hge hlt
    have hn4 : ¬ data.length < HEADER_SIZE := by omega
    simp [restoreSnapshot, h1, h2, h3, hn4, hmagic, hver, hlt]
  · intro hmagic hver hge hlt
    simp only [snapMemoryLength] at hlt
    have hn4 : ¬ data.length < HEADER_SIZE := by omega
    have hn7 : ¬ data.length < HEADER_SIZE + 4 := by omega
    simp [restoreSnapshot, h1, h2, h3, hn4, hmagic, hver, hn7, hlt]
  · intro hmagic hver hge hlt
    simp only [snapMemoryLength] at hge hlt
    have hn4 : ¬ data.length < HEADER_SIZE := by omega
    have hn7 : ¬ data.length < HEADER_SIZE + 4 := by omega
    have hn8 : ¬ data.length < HEADER_SIZE + 4 + leU32 data HEADER_SIZE := by omega
    simp [restoreSnapshot, h1, h2, h3, hn4, hmagic, hver, hn7, hn8, hlt]
  · intro hmagic hver hge hlt
    simp only [snapMemoryLength, snapStateLength] at hge hlt
    have hn4 : ¬ data.length < HEADER_SIZE := by omega
    have hn7 : ¬ data.length < HEADER_SIZE + 4 := by omega
    have hn8 : ¬ data.length < HEADER_SIZE + 4 + leU32 data HEADER_SIZE := by omega
    have hn9 : ¬ data.length < HEADER_SIZE + 4 + leU32 data HEADER_SIZE + 4 := by omega
    simp [restoreSnapshot, h1, h2, h3, hn4, hmagic, hver, hn7, hn8, hn9, hlt]
  · intro hmagic hver hge hparse
    simp only [snapMemoryLength, snapStateLength] at hge
    simp only [snapStateBytes, snapMemoryLength, snapStateLength] at hparse
    have hn4 : ¬ data.length < HEADER_SIZE := by omega
    have hn7 : ¬ data.length < HEADER_SIZE + 4 := by omega
    have hn8 : ¬ data.length < HEADER_SIZE + 4 + leU32 data HEADER_SIZE := by omega
    have hn9 : ¬ data.length < HEADER_SIZE + 4 + leU32 data HEADER_SIZE + 4 := by omega
    have hn10 : ¬ data.length < HEADER_SIZE + 4 + leU32 data HEADER_SIZE + 4 +
        leU32 data (HEADER_SIZE + 4 + leU32 data HEADER_SIZE) := by omega
    simp [restoreSnapshot, h1, h2, h3, hn4, hmagic, hver, hn7, hn8, hn9, hn10, hparse]
  · intro sj mem hmagic hver hge hparse hmem hne
    simp only [snapMemoryLength, snapStateLength] at hge
    simp only [snapStateBytes, snapMemoryLength, snapStateLength] at hparse
    simp only [snapMemoryLength] at hne ⊢
    have hn4 : ¬ data.length < HEADER_SIZE := by omega
    have hn7 : ¬ data.length < HEADER_SIZE + 4 := by omega
    have hn8 : ¬ data.length < HEADER_SIZE + 4 + leU32 data HEADER_SIZE := by omega
    have hn9 : ¬ data.length < HEADER_SIZE + 4 + leU32 data HEADER_SIZE + 4 := by omega
    have hn10 : ¬ data.length < HEADER_SIZE + 4 + leU32 data HEADER_SIZE + 4 +
        leU32 data (HEADER_SIZE + 4 + leU32 data HEADER_SIZE) := by omega
    simp [restoreSnapshot, h1, h2, h3, hn4, hmagic, hver, hn7, hn8, hn9, hn10, hparse,
      hmem, hne]
  · intro hok
    rcases restoreSnapshot_cases p state data with ⟨-, r, herr⟩ | hright
    · rw [herr] at hok
      exact absurd hok (by simp)
    · obtain ⟨-, c1, c2, c3, -, -, -, c8, rest⟩ := hright
      exact ⟨c1, c2, c3, c8, rest⟩

/-- Constant state-JSON parser used by the snapshot witnesses. -/
def snapParseOK : List Nat → Option SnapshotStateJson :=
  fun _ => some { prngState := { current := 3 }, timestamp := 42, gasUsed := 4 }

/-- Loaded instance with a two-byte linear memory, used by the snapshot
witnesses. -/
def snapStateOK : InternalSandboxState :=
  { id := "sandbox-0"
    config :=
      { maxMemoryBytes := 65536, maxGas := 10, maxExecutionMs := 50
        hostFunctions := [], deterministicSeed := 0, eventTimestamp := 1700000000000 }
    status := .loaded
    metrics :=
      { memoryUsedBytes := 2, memoryLimitBytes := 65536, gasUsed := 1, gasLimit := 10
        executionMs := 0, executionLimitMs := 50 }
    wasmMemory := some { data := [7, 8], maxPages := 1 }
    wasmModule := none, wasmInstance := none, executionContext := none
    prng := some { current := 5 } }

/-- Well-formed snapshot bytes for snapStateOK: magic, version 1, 2-byte
memory section [9, 9], empty state section. -/
def snapDataOK : List Nat :=
  [0x57, 0x53, 0x4e, 0x50, 1, 2, 0, 0, 0, 9, 9, 0, 0, 0, 0]

/-- C3 witness: a one-byte input fails the header-length check with the
too-small error on a loaded instance. -/
theorem c3_restore_snapshot_validation_witness :
    (restoreSnapshot snapParseOK snapStateOK [0]).1 =
      .error (.snapshotErr "Snapshot too small - missing header") := by
  exact (c3_restore_snapshot_validation snapParseOK snapStateOK [0]
    (Or.inl rfl)).2.1 (by decide)

/-- Projection of the state JSON that forgets the timestamp field. -/
def stripSnapshotTimestamp (sj : SnapshotStateJson) : PrngState × Nat :=
  (sj.prngState, sj.gasUsed)

/-- C10: a successful restore changes only the linear-memory contents, the
PRNG state, the gasUsed metric, and the status; the id, config (including
eventTimestamp), module and instance handles, execution context, and every
other metric field are unchanged; and restoreSnapshot is invariant under
changing the parser's timestamp field — the stored timestamp is never read
or applied. -/
theorem c10_restore_frame (p : List Nat → Option SnapshotStateJson)
    (state : InternalSandboxState) (data : List Nat)
    (hsucc : (restoreSnapshot p state data).1 = .ok ()) :
    ((restoreSnapshot p state data).2.id = state.id ∧
     (restoreSnapshot p state data).2.config = state.config ∧
     (restoreSnapshot p state data).2.config.eventTimestamp =
       state.config.eventTimestamp ∧
     (restoreSnapshot p state data).2.wasmModule = state.wasmModule ∧
     (restoreSnapshot p state data).2.wasmInstance = state.wasmInstance ∧
     (restoreSnapshot p state data).2.executionContext = state.executionContext ∧
     (restoreSnapshot p state data).2.metrics.memoryUsedBytes =
       state.metrics.memoryUsedBytes ∧
     (restoreSnapshot p state data).2.metrics.memoryLimitBytes =
       state.metrics.memoryLimitBytes ∧
     (restoreSnapshot p state data).2.metrics.gasLimit = state.metrics.gasLimit ∧
     (restoreSnapshot p state data).2.metrics.executionMs =
       state.metrics.executionMs ∧
     (restoreSnapshot p state data).2.metrics.executionLimitMs =
       state.metrics.executionLimitMs) ∧
    (∀ p1 p2 : List Nat → Option SnapshotStateJson,
        (∀ bs, Option.map stripSnapshotTimestamp (p1 bs) =
               Option.map stripSnapshotTimestamp (p2 bs)) →
        restoreSnapshot p1 state data = restoreSnapshot p2 state data) := by
  constructor
  · rcases restoreSnapshot_cases p state data with ⟨-, r, herr⟩ | hright
    · rw [herr] at hsucc
      exact absurd hsucc (by simp)
    · obtain ⟨-, -, -, -, -, -, -, -, mem, sj, hmem, hp, hlen, hpost⟩ := hright
      rw [hpost]
      simp
  · intro p1 p2 hag
    by_cases h1 : state.status = .destroyed
    · simp [restoreSnapshot, h1]
    by_cases h2 : state.status = .created
    · simp [restoreSnapshot, h1, h2]
    by_cases h3 : state.status = .running
    · simp [restoreSnapshot, h1, h2, h3]
    by_cases h4 : data.length < HEADER_SIZE
    · simp [restoreSnapshot, h1, h2, h3, h4]
    cases hm : magicMatches data with
    | false => simp [restoreSnapshot, h1, h2, h3, h4, hm]
    | true =>
    by_cases h6 : snapVersion data = SNAPSHOT_VERSION
    case neg => simp [restoreSnapshot, h1, h2, h3, h4, hm, h6]
    case pos =>
    by_cases h7 : data.length < HEADER_SIZE + 4
    · simp [restoreSnapshot, h1, h2, h3, h4, hm, h6, h7]
    by_cases h8 : data.length < HEADER_SIZE + 4 + leU32 data HEADER_SIZE
    · simp [restoreSnapshot, h1, h2, h3, h4, hm, h6, h7, h8]
    by_cases h9 : data.length < HEADER_SIZE + 4 + leU32 data HEADER_SIZE + 4
    · simp [restoreSnapshot, h1, h2, h3, h4, hm, h6, h7, h8, h9]
    by_cases h10 : data.length < HEADER_SIZE + 4 + leU32 data HEADER_SIZE + 4 +
        leU32 data (HEADER_SIZE + 4 + leU32 data HEADER_SIZE)
    · simp [restoreSnapshot, h1, h2, h3, h4, hm, h6, h7, h8, h9, h10]
    have hagb := hag ((data.drop (HEADER_SIZE + 4 + leU32 data HEADER_SIZE + 4)).take
      (leU32 data (HEADER_SIZE + 4 + leU32 data HEADER_SIZE)))
    cases hp1 : p1 ((data.drop (HEADER_SIZE + 4 + leU32 data HEADER_SIZE + 4)).take
        (leU32 data (HEADER_SIZE + 4 + leU32 data HEADER_SIZE))) with
    | none =>
        rw [hp1] at hagb
        have hp2 : p2 ((data.drop (HEADER_SIZE + 4 + leU32 data HEADER_SIZE + 4)).take
            (leU32 data (HEADER_SIZE + 4 + leU32 data HEADER_SIZE))) = none :=
          Option.map_eq_none'.mp hagb.symm
        simp [restoreSnapshot, h1, h2, h3, h4, hm, h6, h7, h8, h9, h10, hp1, hp2]
    | some sj1 =>
        rw [hp1] at hagb
        rcases Option.map_eq_some'.mp hagb.symm with ⟨sj2, hp2, hstrip⟩
        have hps : sj2.prngState = sj1.prngState := by
          have := congrArg Prod.fst hstrip
          simpa [stripSnapshotTimestamp] using this
        have hgas : sj2.gasUsed = sj1.gasUsed := by
          have := congrArg Prod.snd hstrip
          simpa [stripSnapshotTimestamp] using this
        simp [restoreSnapshot, h1, h2, h3, h4, hm, h6, h7, h8, h9, h10, hp1, hp2,
          hps, hgas]

/-- C10 witness: restoring the concrete valid snapshot succeeds, and the
config eventTimestamp is untouched by the restore. -/
theorem c10_restore_frame_witness :
    (restoreSnapshot snapParseOK snapStateOK snapDataOK).2.config.eventTimestamp =
      snapStateOK.config.eventTimestamp := by
  exact (c10_restore_frame snapParseOK snapStateOK snapDataOK rfl).1.2.2.1

end RiSandbox
